import Mathlib

/-
Verification of the column-resolution and chart-preparation logic of
src/innovation_country_viz.py (Streamlit app "Country Innovation Profiles").

The embedding models pandas DataFrames as Lean lists of row structures,
Python dict lookup as association-list lookup (a missing key, which raises
KeyError in Python, is modelled as Option.none or as Except.error), and the
string-building column resolvers as functions on String. Python exceptions
(raise ValueError / raise of a string literal / KeyError / IndexError) are
modelled with Except/Option; Except.error and Option.none mean the render
cycle aborts with the corresponding exception.
-/

deriving instance DecidableEq for Except

namespace InnovationViz

/-- Boolean test that a string ends with the given closing substring,
computed on the character lists; embeds str.endswith of Python. -/
def strEndsWith (s post : String) : Bool :=
  post.data.isSuffixOf s.data

/-! ## Data model

Rows of the four loaded tables. Numeric data columns (works, citations,
patent_count, gdppc, pop and all their suffixed variants) are modelled as an
association list from column name to a rational value, since the resolvers
address them by computed string names. -/

/-- A row of country_codes.parquet: the country_name to country_code mapping. -/
structure CCRow where
  country_name : String
  country_code : String
deriving DecidableEq, Repr

/-- A row of country_totals.parquet. The selected_country field models the
text-label column added by the script during the render (lines 233-236);
it is absent (none) in the loaded table. -/
structure CTRow where
  country_code : String
  country_name : String
  region : String
  cols : List (String × Rat)
  selected_country : Option String
deriving DecidableEq, Repr

/-- Numeric column access on a country_totals row. -/
def CTRow.get (r : CTRow) (col : String) : Rat :=
  (r.cols.lookup col).getD 0

/-- A row of country_concept.parquet (OpenAlex works, one row per
country and concept). -/
structure OARow where
  country_code : String
  broad_concept_name : String
  concept_name : String
  cols : List (String × Rat)
deriving DecidableEq, Repr

/-- Numeric column access on a works row. -/
def OARow.get (r : OARow) (col : String) : Rat :=
  (r.cols.lookup col).getD 0

/-- A row of country_patents.parquet (one row per country and IPC4 subclass). -/
structure PatRow where
  country_code : String
  section_name : String
  subclass_code : String
  subclass_name : String
  cols : List (String × Rat)
deriving DecidableEq, Repr

/-- Numeric column access on a patents row. -/
def PatRow.get (r : PatRow) (col : String) : Rat :=
  (r.cols.lookup col).getD 0

/-- The four tables loaded by read_data, as one state record; the script
binds them to module-level names (line 85). -/
structure AppState where
  works_all : List OARow
  patents : List PatRow
  country_codes : List CCRow
  country_totals : List CTRow
deriving DecidableEq, Repr

/-! ## Dataset loader (gcsfs_to_pandas, lines 36-44)

The object store is an association list from "BUCKET/file" path to parsed
table content (parsing itself is out of scope, so content is abstract).
fs.open on a missing object raises a not-found error (DataUnavailable in
the spec taxonomy); an unrecognized extension raises
ValueError "File format not supported" (UnsupportedFormat). -/

/-- Error taxonomy of the loader, from the spec section 7. -/
inductive LoadError where
  | DataUnavailable : LoadError
  | UnsupportedFormat : LoadError
deriving DecidableEq, Repr

/-- Embedding of gcsfs_to_pandas: open the object (fail with
DataUnavailable if missing), then dispatch on the file-name extension;
.parquet and .csv parse to a table, anything else raises
UnsupportedFormat. -/
def gcsfs_to_pandas {α : Type} (store : List (String × α))
    (BUCKET_NAME file_name : String) : Except LoadError α :=
  match store.lookup (BUCKET_NAME ++ "/" ++ file_name) with
  | none => .error .DataUnavailable
  | some content =>
    if strEndsWith file_name ".parquet" then .ok content
    else if strEndsWith file_name ".csv" then .ok content
    else .error .UnsupportedFormat

/-! ## Fixed prody color-range tables (lines 178-185) -/

/-- Fixed color range for the patents treemap prody coloring (line 178). -/
def patents_prody_color_range : List (String × (Rat × Rat)) :=
  [("patent_count_prody_count", ((20412.18 : Rat), (46355.5 : Rat)))]

/-- Fixed color ranges for the publications treemap prody coloring
(lines 180-185). -/
def publications_prody_color_range : List (String × (Rat × Rat)) :=
  [("works_prody_count", ((18020.53 : Rat), (35572.04 : Rat))),
   ("citations_prody_count", ((20481.44 : Rat), (38344.45 : Rat))),
   ("works_cited_prody_count", ((18803.98 : Rat), (35492.67 : Rat))),
   ("citations_cited_prody_count", ((20002.89 : Rat), (38103.41 : Rat)))]

/-! ## Country filter (lines 191-192)

works_all[works_all.country_code == selected_country] is a boolean-mask
filter; it is generic in the row type, given the country_code accessor. -/

/-- Embedding of the country filter: keep the rows whose country_code
equals the selected code, preserving order. Total: an unknown code yields
the empty table, never an error. -/
def country_filter {ρ : Type} (ccode : ρ → String)
    (tbl : List ρ) (code : String) : List ρ :=
  tbl.filter (fun r => ccode r == code)

/-! ## Column resolvers -/

/-- Embedding of the citation-constraint step shared by the scatter
resolver (lines 199-204) and the treemap resolver (lines 325-330): no
constraint keeps the metric name, "at least 5" appends _cited, anything
else raises. -/
def plot_col_oa_constraint (metric constraint : String) :
    Except String String :=
  if constraint == "none" then .ok metric
  else if constraint == "at least 5" then .ok (metric ++ "_cited")
  else .error "Invalid citation constraint"

/-- Embedding of the publications scatter resolver (lines 199-216):
citation-constraint step, then the aggregation step appends _pc for
"per capita", nothing for "total", _expy_count for "sophistication (expy)"
which also switches log_oa to false. Returns the column and the log flag. -/
def scatter_col_oa (metric constraint agg : String) :
    Except String (String × Bool) := do
  let base ← plot_col_oa_constraint metric constraint
  if agg == "total" then .ok (base, true)
  else if agg == "per capita" then .ok (base ++ "_pc", true)
  else if agg == "sophistication (expy)" then .ok (base ++ "_expy_count", false)
  else .error "Invalid aggregation method"

/-- Embedding of the patents scatter resolver (lines 219-229): base is
always patent_count, same aggregation step and log flag rule. -/
def scatter_col_pat (agg : String) : Except String (String × Bool) :=
  if agg == "total" then .ok ("patent_count", true)
  else if agg == "per capita" then .ok ("patent_count" ++ "_pc", true)
  else if agg == "sophistication (expy)" then
    .ok ("patent_count" ++ "_expy_count", false)
  else .error "Invalid aggregation method"

/-- Embedding of the publications treemap value-column resolver
(lines 325-339): citation-constraint step, then "rca" appends _rca and
"none" appends nothing. -/
def plot_col_oa (metric constraint transformation : String) :
    Except String String := do
  let base ← plot_col_oa_constraint metric constraint
  if transformation == "none" then .ok base
  else if transformation == "rca" then .ok (base ++ "_rca")
  else .error "Invalid transformation"

/-- Modelled from the spec: the treemap transformation step of the app
variants not included under src, whose widgets also offer "market share".
Spec section 4.2 step 3: if transformation is "rca" append _rca, if
"market share" append _market_share, if "none" no suffix. -/
def plot_col_oa_spec_transform (base transformation : String) :
    Except String String :=
  if transformation == "none" then .ok base
  else if transformation == "rca" then .ok (base ++ "_rca")
  else if transformation == "market share" then .ok (base ++ "_market_share")
  else .error "Invalid transformation"

/-- Embedding of the patents treemap value-column resolver (lines
396-402): base patent_count, "rca" appends _rca. -/
def plot_col_pat (transformation : String) : Except String String :=
  if transformation == "none" then .ok "patent_count"
  else if transformation == "rca" then .ok ("patent_count" ++ "_rca")
  else .error "Invalid transformation"

/-- Embedding of the publications color-column resolver (lines 342-347):
prody coloring builds the key from the constraint column only (the rca
transformation is not part of the key); the categorical choice yields no
color column. -/
def color_col_oa (metric constraint color_param : String) :
    Except String (Option String) := do
  let base ← plot_col_oa_constraint metric constraint
  if color_param == "concept sophistication (prody)" then
    .ok (some (base ++ "_prody_count"))
  else if color_param == "broad concept" then .ok none
  else .error "Invalid color parameter"

/-- Embedding of the patents color-column resolver (lines 405-410). -/
def color_col_pat (color_param : String) : Except String (Option String) :=
  if color_param == "subclass sophistication (prody)" then
    .ok (some ("patent_count" ++ "_prody_count"))
  else if color_param == "patent class" then .ok none
  else .error "Invalid color parameter"

/-! ## Treemap color configuration (lines 360-369 and 424-433)

When prody coloring is selected the script subscripts the fixed range dict
with the resolved color column; a key not present raises KeyError
(modelled as Except.error "KeyError"). Otherwise color, scale, range and
labels are all None: the chart falls back to categorical grouping. -/

/-- Configuration passed to the treemap builder: the continuous color
column, its fixed range, and the labels key (color, range_color, labels
arguments of px.treemap). All none means categorical grouping. -/
structure TreemapColorCfg where
  color : Option String
  range_color : Option (Rat × Rat)
  labels_key : Option String
deriving DecidableEq, Repr

/-- The categorical-grouping fallback configuration (the else branches at
lines 365-369 and 429-433). -/
def categoricalCfg : TreemapColorCfg := ⟨none, none, none⟩

/-- Embedding of lines 360-369: publications treemap color configuration
from the color parameter and the resolved color column. Subscripting the
fixed dict with a missing key (or with None) raises KeyError. -/
def fig_oa_color_cfg (color_param : String) (ccol : Option String) :
    Except String TreemapColorCfg :=
  if color_param == "concept sophistication (prody)" then
    match ccol with
    | some c =>
      match publications_prody_color_range.lookup c with
      | some rng => .ok ⟨some c, some rng, some c⟩
      | none => .error "KeyError"
    | none => .error "KeyError"
  else .ok categoricalCfg

/-- Embedding of lines 424-433: patents treemap color configuration. -/
def fig_pat_color_cfg (color_param : String) (ccol : Option String) :
    Except String TreemapColorCfg :=
  if color_param == "subclass sophistication (prody)" then
    match ccol with
    | some c =>
      match patents_prody_color_range.lookup c with
      | some rng => .ok ⟨some c, some rng, some c⟩
      | none => .error "KeyError"
    | none => .error "KeyError"
  else .ok categoricalCfg

/-! ## Treemap row selection (lines 372 and 436)

px.treemap receives df[df[plot_col] > 0]: the boolean-mask filter keeping
exactly the rows whose resolved value column is strictly positive. -/

/-- Embedding of the treemap input filter, generic in the row type with
the resolved value accessor: keep exactly the rows with strictly positive
value, preserving order. -/
def treemap_pos_rows {ρ : Type} (value : ρ → Rat) (tbl : List ρ) : List ρ :=
  tbl.filter (fun r => value r > 0)

/-! ## Scatter text-label column (lines 233-236)

country_totals["selected_country"] = "" writes a blank column into the
loaded country_totals table in place, then .loc[mask, ...] = selected sets
the rows matching the selected code. -/

/-- Embedding of line 233: set the selected_country column to the empty
string on every row. -/
def blank_selected_col (tbl : List CTRow) : List CTRow :=
  tbl.map (fun r => { r with selected_country := some "" })

/-- Embedding of lines 234-236: on the rows whose country_code equals the
selected code, set the selected_country column to the selected code. -/
def set_selected_col (tbl : List CTRow) (sel : String) : List CTRow :=
  tbl.map (fun r =>
    if r.country_code == sel then { r with selected_country := some sel }
    else r)

/-- The whole text-label derivation of lines 233-236. -/
def annotateCountryTotals (tbl : List CTRow) (sel : String) : List CTRow :=
  set_selected_col (blank_selected_col tbl) sel

/-- The render pipeline effect on the four loaded tables: works_all,
patents and country_codes are only read (the country filters at lines
191-192 bind fresh filtered tables and store nothing back); country_totals
is written in place by the label derivation at lines 233-236. -/
def renderPipeline (s : AppState) (sel : String) : AppState :=
  { s with country_totals := annotateCountryTotals s.country_totals sel }

/-! ## First-element lookups (lines 97-99 and 303-311)

country_codes[mask].country_code.values[0] and
country_totals.loc[mask, col].iloc[0] take the first element of the
filtered column; an empty mask raises IndexError, modelled as none. -/

/-- Embedding of lines 97-99: resolve the selected country name to its
code, the first country_code value among rows whose country_name matches;
none models the IndexError raised when no row matches. -/
def selected_country_lookup (country_codes : List CCRow) (name : String) :
    Option String :=
  ((country_codes.filter (fun r => r.country_name == name)).map
    (fun r => r.country_code)).head?

/-- Embedding of lines 303-311: the per-country total for a given column,
the first value of that column among rows whose country_code matches; none
models the IndexError raised when no row matches. -/
def country_total_lookup (country_totals : List CTRow)
    (code col : String) : Option Rat :=
  ((country_totals.filter (fun r => r.country_code == code)).map
    (fun r => CTRow.get r col)).head?

/-! ## Theorems -/

/-- C1: for every UI-offered metric (works, citations), citation
constraint (none, at least 5) and treemap transformation (none, rca), the
publications treemap value column is the metric base name with _cited
appended exactly for the "at least 5" constraint and then _rca appended
exactly for the "rca" transformation, so works / at least 5 / rca yields
works_cited_rca; the market-share transformation of the spec (offered by
app variants not under src) appends _market_share. -/
theorem C1_treemap_value_column :
    (∀ m ∈ ["works", "citations"], ∀ c ∈ ["none", "at least 5"],
      ∀ t ∈ ["none", "rca"],
      plot_col_oa m c t =
        .ok (m ++ (if c = "at least 5" then "_cited" else "") ++
             (if t = "rca" then "_rca" else ""))) ∧
    plot_col_oa "works" "at least 5" "rca" = .ok "works_cited_rca" ∧
    (∀ base : String,
      plot_col_oa_spec_transform base "market share" =
        .ok (base ++ "_market_share")) := by
  refine ⟨?_, rfl, fun base => rfl⟩
  intro m hm c hc t ht
  fin_cases hm <;> fin_cases hc <;> fin_cases ht <;> rfl

/-- C1 witness: the suffix formula instantiated at works, at least 5, rca. -/
theorem C1_treemap_value_column_witness :
    plot_col_oa "works" "at least 5" "rca" =
      .ok ("works" ++ (if "at least 5" = "at least 5" then "_cited" else "") ++
           (if "rca" = "rca" then "_rca" else "")) :=
  C1_treemap_value_column.1 "works" (by decide) "at least 5" (by decide)
    "rca" (by decide)

/-- C2: for every UI-offered metric, citation constraint and aggregation,
the publications scatter column is the metric with _cited appended exactly
for "at least 5", then _pc for "per capita", nothing for "total",
_expy_count for "sophistication (expy)"; the y-axis log flag is true in
every case except sophistication; patents use base patent_count with the
same aggregation suffixing and log rule; works / none / per capita gives
works_pc with log true. -/
theorem C2_scatter_columns :
    (∀ m ∈ ["works", "citations"], ∀ c ∈ ["none", "at least 5"],
      ∀ a ∈ ["per capita", "total", "sophistication (expy)"],
      scatter_col_oa m c a =
        .ok (m ++ (if c = "at least 5" then "_cited" else "") ++
              (if a = "per capita" then "_pc"
               else if a = "sophistication (expy)" then "_expy_count"
               else ""),
             !(a == "sophistication (expy)"))) ∧
    (∀ a ∈ ["per capita", "total", "sophistication (expy)"],
      scatter_col_pat a =
        .ok ("patent_count" ++
              (if a = "per capita" then "_pc"
               else if a = "sophistication (expy)" then "_expy_count"
               else ""),
             !(a == "sophistication (expy)"))) ∧
    scatter_col_oa "works" "none" "per capita" = .ok ("works_pc", true) := by
  refine ⟨?_, ?_, rfl⟩
  · intro m hm c hc a ha
    fin_cases hm <;> fin_cases hc <;> fin_cases ha <;> rfl
  · intro a ha
    fin_cases ha <;> rfl

/-- C2 witness: the scatter formula instantiated at works, none,
per capita, and at patents with sophistication. -/
theorem C2_scatter_columns_witness :
    scatter_col_oa "works" "none" "per capita" =
      .ok ("works" ++ (if "none" = "at least 5" then "_cited" else "") ++
            (if "per capita" = "per capita" then "_pc"
             else if "per capita" = "sophistication (expy)" then "_expy_count"
             else ""),
           !("per capita" == "sophistication (expy)")) ∧
    scatter_col_pat "sophistication (expy)" =
      .ok ("patent_count" ++
            (if "sophistication (expy)" = "per capita" then "_pc"
             else if "sophistication (expy)" = "sophistication (expy)" then
               "_expy_count"
             else ""),
           !("sophistication (expy)" == "sophistication (expy)")) :=
  ⟨C2_scatter_columns.1 "works" (by decide) "none" (by decide)
      "per capita" (by decide),
    C2_scatter_columns.2.1 "sophistication (expy)" (by decide)⟩

/-- C3: the treemap input filter keeps exactly the rows whose resolved
value column is strictly positive: membership in the filtered table is
membership in the input with value greater than zero, and the rows valued
5, 0, -3, 10 are reduced to exactly the rows valued 5, 10. -/
theorem C3_treemap_positive_rows :
    (∀ (ρ : Type) (value : ρ → Rat) (tbl : List ρ) (r : ρ),
      r ∈ treemap_pos_rows value tbl ↔ r ∈ tbl ∧ value r > 0) ∧
    treemap_pos_rows (fun x : Rat => x) [5, 0, -3, 10] = [5, 10] := by
  refine ⟨?_, by decide⟩
  intro ρ value tbl r
  simp [treemap_pos_rows, List.mem_filter]

/-- The label derivation of lines 233-236 acts row-wise: each row keeps
all its fields and gets selected_country set to the selected code when its
country_code matches, to the empty string otherwise. -/
theorem annotate_eq_map (tbl : List CTRow) (sel : String) :
    annotateCountryTotals tbl sel =
      tbl.map (fun r =>
        { r with selected_country := some (if r.country_code == sel then sel else "") }) := by
  unfold annotateCountryTotals set_selected_col blank_selected_col
  rw [List.map_map]
  congr 1
  funext r
  by_cases h : r.country_code == sel <;> simp [Function.comp, h]

/-- C4: in the annotated country-totals table, the derived text-label
column equals the selected country code on every row whose country_code
matches the selection, and the empty string on every other row. -/
theorem C4_scatter_text_label (tbl : List CTRow) (sel : String) (r : CTRow)
    (hr : r ∈ annotateCountryTotals tbl sel) :
    (r.country_code = sel → r.selected_country = some sel) ∧
    (r.country_code ≠ sel → r.selected_country = some "") := by
  rw [annotate_eq_map] at hr
  rcases List.mem_map.mp hr with ⟨r0, _, rfl⟩
  constructor
  · intro h
    have h2 : r0.country_code = sel := h
    show some (if r0.country_code == sel then sel else "") = some sel
    simp [h2]
  · intro h
    have h2 : r0.country_code ≠ sel := h
    show some (if r0.country_code == sel then sel else "") = some ""
    simp [h2]

/-- C4 witness: a one-row table at the matching code USA. -/
theorem C4_scatter_text_label_witness :
    ((⟨"USA", "United States", "North America", [], some "USA"⟩ : CTRow).country_code
        = "USA" →
      (⟨"USA", "United States", "North America", [], some "USA"⟩ : CTRow).selected_country
        = some "USA") ∧
    ((⟨"USA", "United States", "North America", [], some "USA"⟩ : CTRow).country_code
        ≠ "USA" →
      (⟨"USA", "United States", "North America", [], some "USA"⟩ : CTRow).selected_country
        = some "") :=
  C4_scatter_text_label
    [⟨"USA", "United States", "North America", [], none⟩] "USA"
    ⟨"USA", "United States", "North America", [], some "USA"⟩ (by decide)

/-- C6: the country filter returns exactly the subset of rows whose
country_code equals the given code; it is total (never raises), a code
matching no row yields the empty table, and a concrete unknown code on a
one-row works table yields zero rows. -/
theorem C6_country_filter :
    (∀ (ρ : Type) (ccode : ρ → String) (tbl : List ρ) (code : String) (r : ρ),
      r ∈ country_filter ccode tbl code ↔ r ∈ tbl ∧ ccode r = code) ∧
    (∀ (ρ : Type) (ccode : ρ → String) (tbl : List ρ) (code : String),
      (∀ r ∈ tbl, ccode r ≠ code) → country_filter ccode tbl code = []) ∧
    country_filter (fun r : OARow => r.country_code)
      [⟨"USA", "Physical sciences", "Geology", []⟩] "ZZZ" = [] := by
  refine ⟨?_, ?_, by decide⟩
  · intro ρ ccode tbl code r
    simp [country_filter, List.mem_filter]
  · intro ρ ccode tbl code h
    simp only [country_filter, List.filter_eq_nil_iff]
    intro r hr
    simpa using h r hr

/-- C6 witness: the empty-result part at a concrete unmatched code. -/
theorem C6_country_filter_witness :
    country_filter (fun r : OARow => r.country_code)
      [⟨"BRA", "Physical sciences", "Geology", []⟩] "USA" = [] :=
  C6_country_filter.2.1 OARow (fun r => r.country_code)
    [⟨"BRA", "Physical sciences", "Geology", []⟩] "USA" (by decide)

/-- C5 counterexample: with prody coloring selected, subscripting the
patents color-range dict with a key not in the table (works_prody_count)
yields the KeyError that aborts the render; it does not produce the
categorical-grouping configuration, so the claimed fallback to categorical
coloring on a missing key is false. -/
theorem C5_color_range_counterexample :
    fig_pat_color_cfg "subclass sophistication (prody)"
        (some "works_prody_count") = .error "KeyError" ∧
    fig_pat_color_cfg "subclass sophistication (prody)"
        (some "works_prody_count") ≠ .ok categoricalCfg := by
  refine ⟨rfl, ?_⟩
  intro h
  exact Except.noConfusion
    (show (Except.error "KeyError" : Except String TreemapColorCfg) =
        .ok categoricalCfg from h)

/-- C5 amended: lookup for patent_count_prody_count returns exactly the
pair (20412.18, 46355.5); with prody coloring selected, a key missing from
the fixed table makes the color configuration fail with KeyError (aborting
the render, no fallback); the categorical-grouping configuration arises
exactly from the categorical color parameter (patent class). -/
theorem C5_color_range_lookup :
    patents_prody_color_range.lookup "patent_count_prody_count" =
      some ((20412.18 : Rat), (46355.5 : Rat)) ∧
    (∀ k : String, patents_prody_color_range.lookup k = none →
      fig_pat_color_cfg "subclass sophistication (prody)" (some k) =
        .error "KeyError") ∧
    fig_pat_color_cfg "patent class" none = .ok categoricalCfg := by
  refine ⟨rfl, ?_, rfl⟩
  intro k hk
  simp [fig_pat_color_cfg, hk]

/-- C5 witness: the missing-key branch at the concrete key
works_prody_count, absent from the patents table. -/
theorem C5_color_range_lookup_witness :
    patents_prody_color_range.lookup "works_prody_count" = none ∧
    fig_pat_color_cfg "subclass sophistication (prody)"
        (some "works_prody_count") = .error "KeyError" :=
  ⟨rfl, C5_color_range_lookup.2.1 "works_prody_count" rfl⟩

/-- C7 counterexample: a remote object that exists but has an unsupported
extension (data.json) fails with UnsupportedFormat, not with the
DataUnavailable the claim assigns to that case. -/
theorem C7_loader_counterexample :
    gcsfs_to_pandas [("country-innovation/data.json", (1 : Nat))]
        "country-innovation" "data.json" = .error .UnsupportedFormat ∧
    (Except.error .UnsupportedFormat : Except LoadError Nat) ≠
      .error .DataUnavailable :=
  ⟨rfl, by decide⟩

/-- C7 amended: the loader fails with DataUnavailable exactly when the
remote object is missing; when the object exists it fails with
UnsupportedFormat exactly when the file name ends in neither .parquet nor
.csv, and returns the parsed table (no format error) when it ends in
.parquet or .csv. -/
theorem C7_loader {α : Type} (store : List (String × α))
    (BUCKET_NAME file_name : String) :
    (store.lookup (BUCKET_NAME ++ "/" ++ file_name) = none →
      gcsfs_to_pandas store BUCKET_NAME file_name = .error .DataUnavailable) ∧
    (∀ t, store.lookup (BUCKET_NAME ++ "/" ++ file_name) = some t →
      strEndsWith file_name ".parquet" = false →
      strEndsWith file_name ".csv" = false →
      gcsfs_to_pandas store BUCKET_NAME file_name =
        .error .UnsupportedFormat) ∧
    (∀ t, store.lookup (BUCKET_NAME ++ "/" ++ file_name) = some t →
      (strEndsWith file_name ".parquet" = true ∨
        strEndsWith file_name ".csv" = true) →
      gcsfs_to_pandas store BUCKET_NAME file_name = .ok t) := by
  refine ⟨?_, ?_, ?_⟩
  · intro h
    simp [gcsfs_to_pandas, h]
  · intro t ht h1 h2
    simp [gcsfs_to_pandas, ht, h1, h2]
  · intro t ht h
    rcases h with h | h <;> simp [gcsfs_to_pandas, ht, h]

/-- C7 witness: a parquet object present in the store loads as a table,
and a json object present fails with UnsupportedFormat. -/
theorem C7_loader_witness :
    gcsfs_to_pandas [("country-innovation/country_codes.parquet", (1 : Nat))]
        "country-innovation" "country_codes.parquet" = .ok 1 ∧
    gcsfs_to_pandas [("country-innovation/country_codes.json", (2 : Nat))]
        "country-innovation" "country_codes.json" =
      .error .UnsupportedFormat :=
  ⟨(C7_loader [("country-innovation/country_codes.parquet", 1)]
      "country-innovation" "country_codes.parquet").2.2 1 rfl (Or.inl rfl),
   (C7_loader [("country-innovation/country_codes.json", 2)]
      "country-innovation" "country_codes.json").2.1 2 rfl rfl rfl⟩

/-- C8 counterexample: the render pipeline does not leave the loaded
country_totals table unchanged: on a one-row table for USA the label
derivation of lines 233-236 writes the selected_country column into the
loaded table in place, so the table after the pipeline differs from the
loaded one. -/
theorem C8_no_mutation_counterexample :
    (renderPipeline
        ⟨[], [], [], [⟨"USA", "United States", "North America", [], none⟩]⟩
        "USA").country_totals ≠
      [⟨"USA", "United States", "North America", [], none⟩] := by
  decide

/-- C8 amended: the pipeline leaves works, patents and country codes
unchanged; country_totals is changed only by writing the selected_country
label column in place (erasing that column recovers the loaded table, so
every other field, the row count and the row order are preserved); the
derived country-filtered works and patents tables are fresh sublists of
their sources, built without writing anything back. -/
theorem C8_pipeline_effects (s : AppState) (sel : String) :
    (renderPipeline s sel).works_all = s.works_all ∧
    (renderPipeline s sel).patents = s.patents ∧
    (renderPipeline s sel).country_codes = s.country_codes ∧
    ((renderPipeline s sel).country_totals.map
        (fun r => { r with selected_country := none }) =
      s.country_totals.map (fun r => { r with selected_country := none })) ∧
    (country_filter (fun r : OARow => r.country_code) s.works_all sel).Sublist
      s.works_all ∧
    (country_filter (fun r : PatRow => r.country_code) s.patents sel).Sublist
      s.patents := by
  refine ⟨rfl, rfl, rfl, ?_, List.filter_sublist _, List.filter_sublist _⟩
  show (annotateCountryTotals s.country_totals sel).map _ = _
  rw [annotate_eq_map, List.map_map]
  rfl

/-- C9: for every UI-offered selection with prody coloring, the
constructed color-column key is present in the corresponding fixed
color-range table, so the dict lookup never raises: for publications the
key (built from the constraint base only, the resolver takes no
transformation input) is one of the four table keys and the whole color
configuration succeeds; for patents the key is always
patent_count_prody_count, present in the patents table, and the color
configuration is the fixed Inferno range. -/
theorem C9_prody_key_in_table :
    (∀ m ∈ ["works", "citations"], ∀ c ∈ ["none", "at least 5"],
      ∃ k, color_col_oa m c "concept sophistication (prody)" = .ok (some k) ∧
        k ∈ ["works_prody_count", "citations_prody_count",
             "works_cited_prody_count", "citations_cited_prody_count"] ∧
        (publications_prody_color_range.lookup k).isSome = true ∧
        (∃ cfg, (color_col_oa m c "concept sophistication (prody)").bind
            (fig_oa_color_cfg "concept sophistication (prody)") = .ok cfg)) ∧
    color_col_pat "subclass sophistication (prody)" =
      .ok (some "patent_count_prody_count") ∧
    (color_col_pat "subclass sophistication (prody)").bind
        (fig_pat_color_cfg "subclass sophistication (prody)") =
      .ok ⟨some "patent_count_prody_count",
           some ((20412.18 : Rat), (46355.5 : Rat)),
           some "patent_count_prody_count"⟩ := by
  refine ⟨?_, rfl, rfl⟩
  intro m hm c hc
  fin_cases hm <;> fin_cases hc <;>
    exact ⟨_, rfl, by decide, rfl, ⟨_, rfl⟩⟩

/-- C9 witness: the publications key at metric works with no constraint. -/
theorem C9_prody_key_in_table_witness :
    ∃ k, color_col_oa "works" "none" "concept sophistication (prody)" =
        .ok (some k) ∧
      k ∈ ["works_prody_count", "citations_prody_count",
           "works_cited_prody_count", "citations_cited_prody_count"] ∧
      (publications_prody_color_range.lookup k).isSome = true ∧
      (∃ cfg, (color_col_oa "works" "none" "concept sophistication (prody)").bind
          (fig_oa_color_cfg "concept sophistication (prody)") = .ok cfg) :=
  C9_prody_key_in_table.1 "works" (by decide) "none" (by decide)

/-- A list has a first element exactly when it is nonempty. -/
theorem isSome_head_iff {β : Type} (xs : List β) :
    xs.head?.isSome = true ↔ xs ≠ [] := by
  cases xs <;> simp

/-- C10: the country-name-to-code lookup and the per-country totals
lookups succeed exactly when some row matches the selected name or code;
with no matching row they return none, the IndexError on the first-element
access that aborts the render instead of degrading to an empty display;
concretely, Brazil resolves to BRA in a one-row codes table, and BRA has
no total in a USA-only totals table. -/
theorem C10_first_element_lookups :
    (∀ (cc : List CCRow) (name : String),
      (selected_country_lookup cc name).isSome = true ↔
        ∃ r ∈ cc, r.country_name = name) ∧
    (∀ (ct : List CTRow) (code col : String),
      (country_total_lookup ct code col).isSome = true ↔
        ∃ r ∈ ct, r.country_code = code) ∧
    selected_country_lookup [⟨"Brazil", "BRA"⟩] "Brazil" = some "BRA" ∧
    country_total_lookup
      [⟨"USA", "United States", "North America", [("patent_count", 7)], none⟩]
      "BRA" "patent_count" = none := by
  refine ⟨?_, ?_, rfl, rfl⟩
  · intro cc name
    rw [selected_country_lookup, isSome_head_iff]
    simp [List.filter_eq_nil_iff]
  · intro ct code col
    rw [country_total_lookup, isSome_head_iff]
    simp [List.filter_eq_nil_iff]

end InnovationViz
